import Mathlib

/-!
Verification of the daylight-detector redstone-emission model from
`src/pumpkin/src/block/blocks/redstone/daylight_detector.rs`.

The evaluator layer (`time_of_day`, `calculate_sky_light_subtraction`,
`get_sun_angle`, `calculate_power`, `calculate_internal_light`) is embedded
over the real numbers: the Rust `f32`/`f64` arithmetic is modelled by exact
real arithmetic, with the Rust-specific primitives (`fract`/`trunc` rounding
toward zero, the saturating `as u8` cast, `round` half-away-from-zero)
modelled explicitly.  The controller layer (`update_state`,
`on_scheduled_tick`, `normal_use`, `placed`) is embedded as explicit state
passing over a property bundle `{inverted, power}`; block-state handles are
identified with their decoded property bundles, and writes are recorded
explicitly together with their notification strength.
-/

namespace DaylightDetector

/-- Rust `f64::trunc` / `f32::trunc`: rounds toward zero. -/
noncomputable def rustTrunc (x : ℝ) : ℤ :=
  if 0 ≤ x then ⌊x⌋ else ⌈x⌉

/-- Rust `f64::fract`: `x - x.trunc()`.  Negative for negative inputs,
unlike the floor-based fractional part. -/
noncomputable def rustFract (x : ℝ) : ℝ :=
  x - rustTrunc x

/-- Rust `f32::round`: rounds half away from zero. -/
noncomputable def rustRound (x : ℝ) : ℤ :=
  if 0 ≤ x then ⌊x + 1 / 2⌋ else ⌈x - 1 / 2⌉

/-- Rust saturating float-to-`u8` cast (`as u8`): truncate toward zero,
then clamp into `[0, 255]`. -/
noncomputable def castU8 (x : ℝ) : ℤ :=
  max 0 (min 255 (rustTrunc x))

/-- Rust `f32::clamp(lo, hi)`. -/
noncomputable def clampR (lo hi x : ℝ) : ℝ :=
  max lo (min hi x)

/-- Source `time_of_day`: the time-of-day factor computed from the
raw day time, `d = (day_time/24000 - 0.25).fract()`,
`e = 0.5 - cos(d*π)/2`, result `(d*2 + e)/3`. -/
noncomputable def time_of_day (day_time : ℤ) : ℝ :=
  let d := rustFract ((day_time : ℝ) / 24000 - 0.25)
  let e := 0.5 - Real.cos (d * Real.pi) / 2
  (d * 2 + e) / 3

/-- Source `calculate_sky_light_subtraction`: the amount to
subtract from the sky light level given time of day and weather. -/
noncomputable def calculate_sky_light_subtraction
    (time : ℤ) (rain_grad thunder_grad : ℝ) : ℤ :=
  let tod := time_of_day time
  let cos_val := Real.cos (tod * Real.pi * 2)
  let brightness := 0.5 + 2 * clampR (-0.25) 0.25 cos_val
  let brightness := brightness * (1 - rain_grad * 5 / 16)
  let brightness := brightness * (1 - thunder_grad * 5 / 16)
  castU8 ((1 - brightness) * 11)

/-- Source `get_sun_angle`: `time_of_day(time) * π * 2`. -/
noncomputable def get_sun_angle (time : ℤ) : ℝ :=
  time_of_day time * Real.pi * 2

/-- Rust `u8::saturating_sub` on the integer model (operands are
nonnegative in all call sites). -/
def saturating_sub (a b : ℤ) : ℤ :=
  max 0 (a - b)

/-- The pure core of `calculate_internal_light` from the source: the sky
light lookup result (`none` on lookup failure, defaulted to 0 by
`unwrap_or(0)`), minus the sky-light subtraction, with `u8` saturating
subtraction. -/
noncomputable def calculate_internal_light
    (sky_light : Option ℤ) (time : ℤ) (rain thunder : ℝ) : ℤ :=
  saturating_sub (sky_light.getD 0) (calculate_sky_light_subtraction time rain thunder)

/-- Source `calculate_power`: redstone power from internal light,
inverted flag and time.  The result models the `Integer0To15` value by its
index `signal.clamp(0, 15)`. -/
noncomputable def calculate_power (internal_light : ℤ) (inverted : Bool) (time : ℤ) : ℤ :=
  let signal : ℤ :=
    if inverted then
      15 - internal_light
    else if 0 < internal_light then
      let sun_angle := get_sun_angle time
      let target : ℝ := if sun_angle < Real.pi then 0 else Real.pi * 2
      let sun_angle := sun_angle + (target - sun_angle) * 0.2
      rustRound ((internal_light : ℝ) * Real.cos sun_angle)
    else
      0
  max 0 (min 15 signal)

/-- Property bundle `DaylightDetectorLikeProperties`: the `{inverted, power}` property
bundle.  `power` models the `Integer0To15` enum by its index. -/
structure Props where
  inverted : Bool
  power : ℤ
deriving DecidableEq

/-- Notification strength of a block-state write (`BlockFlags`). -/
inductive NotifyFlag where
  | notifyListeners
  | notifyAll
deriving DecidableEq

/-- Result of a block interaction (`BlockActionResult`); only the variants
relevant here are modelled. -/
inductive BlockActionResult where
  | success
  | consume
  | pass
deriving DecidableEq

/-- Tick priority (`TickPriority`); only the variant used here is needed. -/
inductive TickPriority where
  | normal
deriving DecidableEq

/-- Modelled from the spec: the property-bundle-to-storage-index encoding
(`DaylightDetectorLikeProperties::to_index`, generated code not present
under `src/`), abstracted per §9 of the spec as an arithmetic encoding of
the product type `{inverted, power}`. -/
def to_index (p : Props) : ℕ :=
  (cond p.inverted 16 0) + p.power.toNat

/-- Modelled from the spec: the block's state table (`block.states`,
external block-registry data not present under `src/`), one entry per
property bundle, positioned at that bundle's `to_index` offset; state
handles are identified with their decoded property bundles. -/
def allStates : List Props :=
  (List.range 32).map (fun i => ⟨decide (16 ≤ i), ((i % 16 : ℕ) : ℤ)⟩)

/-- The environment snapshot read during one evaluation: the sky-light
lookup result (`none` on failure), the day time, and the weather levels. -/
structure Env where
  skyLight : Option ℤ
  time : ℤ
  rain : ℝ
  thunder : ℝ

/-- The power freshly computed by `update_state`: internal light from the
environment, then `calculate_power` under the given inverted flag. -/
noncomputable def envPower (env : Env) (inverted : Bool) : ℤ :=
  calculate_power (calculate_internal_light env.skyLight env.time env.rain env.thunder)
    inverted env.time

/-- Source `update_state`: recompute power; if it differs from
`current_power`, look up the `{inverted, new_power}` bundle in the state
table and, when the entry exists, write it with `NOTIFY_ALL`.  Returns the
resulting stored state and the performed write, if any. -/
noncomputable def update_state (states : List Props) (env : Env)
    (inverted : Bool) (current_power : ℤ) (stored : Props) :
    Props × Option (Props × NotifyFlag) :=
  let new_power := envPower env inverted
  if new_power ≠ current_power then
    match states[to_index ⟨inverted, new_power⟩]? with
    | some st => (st, some (st, NotifyFlag.notifyAll))
    | none => (stored, none)
  else
    (stored, none)

/-- Source `on_scheduled_tick`: read the stored properties, run
`update_state` with them, then re-arm the tick at delay 20, normal
priority.  Returns the resulting stored state, the performed write (if
any), and the schedule requests. -/
noncomputable def on_scheduled_tick (states : List Props) (env : Env) (stored : Props) :
    Props × Option (Props × NotifyFlag) × List (ℕ × TickPriority) :=
  let u := update_state states env stored.inverted stored.power stored
  (u.1, u.2, [(20, TickPriority.normal)])

/-- Source `normal_use`: read the stored properties, write the
bundle with flipped `inverted` and unchanged `power` using
`NOTIFY_LISTENERS` (when its table entry exists), then run `update_state`
under the new inverted flag against the originally read power, and return
`Success`.  Returns the final stored state, the list of performed writes in
order, and the action result. -/
noncomputable def normal_use (states : List Props) (env : Env) (stored : Props) :
    Props × List (Props × NotifyFlag) × BlockActionResult :=
  let props := stored
  let toggled : Props := ⟨!props.inverted, props.power⟩
  let first :=
    match states[to_index toggled]? with
    | some st => (st, [(st, NotifyFlag.notifyListeners)])
    | none => (stored, ([] : List (Props × NotifyFlag)))
  let u := update_state states env (!props.inverted) props.power first.1
  (u.1, first.2 ++ u.2.toList, BlockActionResult.success)

/-- Source `placed`: in dimensions with skylight, schedule a tick
at delay 20, normal priority; otherwise do nothing. -/
def placed (has_skylight : Bool) : List (ℕ × TickPriority) :=
  if has_skylight then [(20, TickPriority.normal)] else []

/-- One step of the detector's autonomous evolution: if a tick is pending
it fires (conditionally rewriting the state and re-arming itself, so the
pending flag stays set); with no tick pending nothing happens. -/
noncomputable def tickStep (states : List Props) (env : Env) (st : Props × Bool) :
    Props × Bool :=
  if st.2 then ((on_scheduled_tick states env st.1).1, true) else st

/-! ### Helper lemmas -/

lemma calculate_power_nonneg (il : ℤ) (inv : Bool) (t : ℤ) :
    0 ≤ calculate_power il inv t := by
  unfold calculate_power
  exact le_max_left _ _

lemma calculate_power_le_fifteen (il : ℤ) (inv : Bool) (t : ℤ) :
    calculate_power il inv t ≤ 15 := by
  unfold calculate_power
  exact max_le (by norm_num) (min_le_left _ _)

lemma envPower_nonneg (env : Env) (inv : Bool) : 0 ≤ envPower env inv :=
  calculate_power_nonneg _ _ _

lemma envPower_le_fifteen (env : Env) (inv : Bool) : envPower env inv ≤ 15 :=
  calculate_power_le_fifteen _ _ _

lemma allStates_lookup (p : Props) (h0 : 0 ≤ p.power) (h15 : p.power ≤ 15) :
    allStates[to_index p]? = some p := by
  obtain ⟨inv, pow⟩ := p
  simp only [Props.mk.injEq] at h0 h15 ⊢
  cases inv <;> interval_cases pow <;> decide

lemma update_state_eq_self (states : List Props) (env : Env) (inv : Bool)
    (cp : ℤ) (s : Props) (h : envPower env inv = cp) :
    update_state states env inv cp s = (s, none) := by
  simp [update_state, h]

lemma update_state_writes (env : Env) (inv : Bool) (cp : ℤ) (s : Props)
    (h : envPower env inv ≠ cp) :
    update_state allStates env inv cp s =
      (⟨inv, envPower env inv⟩, some (⟨inv, envPower env inv⟩, NotifyFlag.notifyAll)) := by
  have hlk : allStates[to_index ⟨inv, envPower env inv⟩]? = some ⟨inv, envPower env inv⟩ :=
    allStates_lookup _ (envPower_nonneg env inv) (envPower_le_fifteen env inv)
  simp [update_state, h, hlk]

lemma on_scheduled_tick_fst (states : List Props) (env : Env) (s : Props) :
    (on_scheduled_tick states env s).1 = (update_state states env s.inverted s.power s).1 :=
  rfl

lemma on_scheduled_tick_write (states : List Props) (env : Env) (s : Props) :
    (on_scheduled_tick states env s).2.1 = (update_state states env s.inverted s.power s).2 :=
  rfl

lemma tick_fst_eq (env : Env) (s : Props) :
    (on_scheduled_tick allStates env s).1 = ⟨s.inverted, envPower env s.inverted⟩ := by
  by_cases h : envPower env s.inverted = s.power
  · rw [on_scheduled_tick_fst, update_state_eq_self _ _ _ _ _ h]
    cases s with
    | mk inv pow => simpa using h.symm
  · rw [on_scheduled_tick_fst, update_state_writes _ _ _ _ h]

lemma rustTrunc_mono {x y : ℝ} (h : x ≤ y) : rustTrunc x ≤ rustTrunc y := by
  unfold rustTrunc
  split_ifs with hx hy
  · exact Int.floor_mono h
  · exact absurd (le_trans hx h) hy
  · exact le_trans (Int.ceil_le.mpr (by exact_mod_cast le_of_lt (lt_of_not_ge hx)))
      (Int.floor_nonneg.mpr ‹0 ≤ y›)
  · exact Int.ceil_mono h

lemma rustTrunc_le_eleven {x : ℝ} (h : x ≤ 11) : rustTrunc x ≤ 11 := by
  unfold rustTrunc
  split_ifs with hx
  · have h11 : ((11 : ℤ) : ℝ) = 11 := by norm_num
    calc ⌊x⌋ ≤ ⌊((11 : ℤ) : ℝ)⌋ := Int.floor_mono (by rw [h11]; exact h)
      _ = 11 := Int.floor_intCast 11
  · have : (⌈x⌉ : ℤ) ≤ 0 :=
      Int.ceil_le.mpr (by exact_mod_cast le_of_lt (lt_of_not_ge hx))
    omega

lemma castU8_nonneg (x : ℝ) : 0 ≤ castU8 x :=
  le_max_left _ _

lemma castU8_mono {x y : ℝ} (h : x ≤ y) : castU8 x ≤ castU8 y :=
  max_le_max (le_refl 0) (min_le_min (le_refl 255) (rustTrunc_mono h))

lemma castU8_le_eleven {x : ℝ} (h : x ≤ 11) : castU8 x ≤ 11 :=
  max_le (by norm_num) (le_trans (min_le_right _ _) (rustTrunc_le_eleven h))

lemma clampR_mem (lo hi x : ℝ) (h : lo ≤ hi) :
    lo ≤ clampR lo hi x ∧ clampR lo hi x ≤ hi :=
  ⟨le_max_left _ _, max_le h (min_le_left _ _)⟩

lemma calculate_sky_light_subtraction_def (t : ℤ) (r th : ℝ) :
    calculate_sky_light_subtraction t r th
      = castU8 ((1 - (0.5 + 2 * clampR (-0.25) 0.25 (Real.cos (time_of_day t * Real.pi * 2)))
          * (1 - r * 5 / 16) * (1 - th * 5 / 16)) * 11) :=
  rfl

lemma calculate_sky_light_subtraction_nonneg (t : ℤ) (r th : ℝ) :
    0 ≤ calculate_sky_light_subtraction t r th := by
  rw [calculate_sky_light_subtraction_def]
  exact castU8_nonneg _

/-! ### Claim theorems -/

/-- C7: for fixed time, the sky-darkening amount is monotone non-decreasing
in the rain level and in the thunder level (each within `[0, 1]`), and it
always lies in `[0, 11]`. -/
theorem sky_darken_monotone_and_bounded :
    ∀ (t : ℤ) (r th : ℝ), 0 ≤ r → r ≤ 1 → 0 ≤ th → th ≤ 1 →
      (0 ≤ calculate_sky_light_subtraction t r th
        ∧ calculate_sky_light_subtraction t r th ≤ 11)
      ∧ (∀ r' : ℝ, r ≤ r' → r' ≤ 1 →
          calculate_sky_light_subtraction t r th ≤ calculate_sky_light_subtraction t r' th)
      ∧ (∀ th' : ℝ, th ≤ th' → th' ≤ 1 →
          calculate_sky_light_subtraction t r th ≤ calculate_sky_light_subtraction t r th') := by
  intro t r th hr0 hr1 hth0 hth1
  have hc := clampR_mem (-0.25) 0.25
    (Real.cos (time_of_day t * Real.pi * 2)) (by norm_num)
  set c := clampR (-0.25) 0.25 (Real.cos (time_of_day t * Real.pi * 2)) with hcdef
  have hb0 : 0 ≤ 0.5 + 2 * c := by have := hc.1; linarith
  have hfr0 : 0 ≤ 1 - r * 5 / 16 := by linarith
  have hfth0 : 0 ≤ 1 - th * 5 / 16 := by linarith
  refine ⟨⟨calculate_sky_light_subtraction_nonneg t r th, ?_⟩, ?_, ?_⟩
  · rw [calculate_sky_light_subtraction_def, ← hcdef]
    apply castU8_le_eleven
    have hB : 0 ≤ (0.5 + 2 * c) * (1 - r * 5 / 16) * (1 - th * 5 / 16) :=
      mul_nonneg (mul_nonneg hb0 hfr0) hfth0
    nlinarith
  · intro r' hrr' hr'1
    rw [calculate_sky_light_subtraction_def, calculate_sky_light_subtraction_def, ← hcdef]
    apply castU8_mono
    have hfr' : 1 - r' * 5 / 16 ≤ 1 - r * 5 / 16 := by linarith
    have h1 : (0.5 + 2 * c) * (1 - r' * 5 / 16) ≤ (0.5 + 2 * c) * (1 - r * 5 / 16) :=
      mul_le_mul_of_nonneg_left hfr' hb0
    have h2 : (0.5 + 2 * c) * (1 - r' * 5 / 16) * (1 - th * 5 / 16)
        ≤ (0.5 + 2 * c) * (1 - r * 5 / 16) * (1 - th * 5 / 16) :=
      mul_le_mul_of_nonneg_right h1 hfth0
    nlinarith
  · intro th' hthth' hth'1
    rw [calculate_sky_light_subtraction_def, calculate_sky_light_subtraction_def, ← hcdef]
    apply castU8_mono
    have hfth' : 1 - th' * 5 / 16 ≤ 1 - th * 5 / 16 := by linarith
    have hbfr : 0 ≤ (0.5 + 2 * c) * (1 - r * 5 / 16) := mul_nonneg hb0 hfr0
    have h2 : (0.5 + 2 * c) * (1 - r * 5 / 16) * (1 - th' * 5 / 16)
        ≤ (0.5 + 2 * c) * (1 - r * 5 / 16) * (1 - th * 5 / 16) :=
      mul_le_mul_of_nonneg_left hfth' hbfr
    nlinarith

/-- Witness for C7 at time 0 with rain and thunder moving from 0 to 1. -/
theorem sky_darken_monotone_and_bounded_witness :
    (0 ≤ calculate_sky_light_subtraction 0 0 0
      ∧ calculate_sky_light_subtraction 0 0 0 ≤ 11)
    ∧ calculate_sky_light_subtraction 0 0 0 ≤ calculate_sky_light_subtraction 0 1 0
    ∧ calculate_sky_light_subtraction 0 0 0 ≤ calculate_sky_light_subtraction 0 0 1 :=
  ⟨(sky_darken_monotone_and_bounded 0 0 0 le_rfl zero_le_one le_rfl zero_le_one).1,
   (sky_darken_monotone_and_bounded 0 0 0 le_rfl zero_le_one le_rfl zero_le_one).2.1
     1 zero_le_one le_rfl,
   (sky_darken_monotone_and_bounded 0 0 0 le_rfl zero_le_one le_rfl zero_le_one).2.2
     1 zero_le_one le_rfl⟩

/-- The power computation as the specification's words describe it (C1):
`15 − internal_light` when inverted; otherwise, for positive internal
light, the sun angle is eased 20% toward 0 (if `< π`) or `2π` and the
result is `round(internal_light · cos(eased_angle))`; otherwise 0; in every
case the final result is clamped to `[0, 15]`. -/
noncomputable def compute_power_spec (internal_light : ℤ) (inverted : Bool) (time : ℤ) : ℤ :=
  max 0 (min 15 (
    if inverted then
      15 - internal_light
    else if 0 < internal_light then
      rustRound ((internal_light : ℝ) *
        Real.cos (get_sun_angle time +
          ((if get_sun_angle time < Real.pi then 0 else Real.pi * 2) - get_sun_angle time) * 0.2))
    else
      0))

/-- C1: `calculate_power` computes exactly the branch structure the spec
describes (inverted ⇒ `15 − internal_light`; positive internal light ⇒
rounded cosine of the 20%-eased sun angle; otherwise 0), with a final clamp
to `[0, 15]`, so its output always lies in `[0, 15]`. -/
theorem calculate_power_matches_spec_and_bounded :
    ∀ (il : ℤ) (inv : Bool) (t : ℤ),
      calculate_power il inv t = compute_power_spec il inv t
      ∧ 0 ≤ calculate_power il inv t ∧ calculate_power il inv t ≤ 15 :=
  fun il inv t =>
    ⟨rfl, calculate_power_nonneg il inv t, calculate_power_le_fifteen il inv t⟩

/-- C2: `update_state` (used by both the tick path and the toggle path)
performs a state write exactly when the freshly computed power differs from
the power value read at the start; and re-running the scheduled tick with
an unchanged environment performs no write and leaves the stored state
unchanged. -/
theorem conditional_write_iff_power_changed :
    ∀ (env : Env) (inv : Bool) (cp : ℤ) (s : Props),
      ((update_state allStates env inv cp s).2.isSome ↔ envPower env inv ≠ cp)
      ∧ (on_scheduled_tick allStates env ((on_scheduled_tick allStates env s).1)).2.1 = none
      ∧ (on_scheduled_tick allStates env ((on_scheduled_tick allStates env s).1)).1
          = (on_scheduled_tick allStates env s).1 := by
  intro env inv cp s
  refine ⟨?_, ?_, ?_⟩
  · by_cases h : envPower env inv = cp
    · rw [update_state_eq_self _ _ _ _ _ h]
      simp [h]
    · rw [update_state_writes _ _ _ _ h]
      simp [h]
  · rw [on_scheduled_tick_write, tick_fst_eq,
      update_state_eq_self _ _ _ _ _ rfl]
  · rw [tick_fst_eq, tick_fst_eq]

/-- C8: with `has_skylight = false` placement schedules nothing and the
state never changes on its own (no pending tick means every future step
leaves the system fixed); with `has_skylight = true` placement schedules a
tick at delay 20, and every scheduled-tick handler re-arms the next tick at
the same delay-20, normal-priority cadence. -/
theorem placed_and_tick_scheduling :
    (placed false = [])
    ∧ (placed true = [(20, TickPriority.normal)])
    ∧ (∀ (states : List Props) (env : Env) (s : Props),
        (on_scheduled_tick states env s).2.2 = [(20, TickPriority.normal)])
    ∧ (∀ (states : List Props) (env : Env) (s : Props) (n : ℕ),
        (tickStep states env)^[n] (s, false) = (s, false)) := by
  refine ⟨rfl, rfl, fun _ _ _ => rfl, fun states env s n => ?_⟩
  exact Function.iterate_fixed (by simp [tickStep]) n

/-- C10: when the `to_index` offset has no entry in the state table, the
write is silently skipped and the stored state is left unchanged — in
`update_state` (the tick path and the toggle path's second write), and in
`normal_use` (whose first write is likewise guarded; with both lookups
missing the whole operation leaves the state unchanged yet still returns
success). -/
theorem missing_state_entry_skips_write :
    ∀ (states : List Props) (env : Env) (inv : Bool) (cp : ℤ) (s : Props),
      (states[to_index ⟨inv, envPower env inv⟩]? = none →
        update_state states env inv cp s = (s, none))
      ∧ (states[to_index ⟨!s.inverted, s.power⟩]? = none →
         states[to_index ⟨!s.inverted, envPower env (!s.inverted)⟩]? = none →
          normal_use states env s = (s, [], BlockActionResult.success)) := by
  intro states env inv cp s
  constructor
  · intro hnone
    by_cases h : envPower env inv = cp
    · exact update_state_eq_self _ _ _ _ _ h
    · simp [update_state, h, hnone]
  · intro h1 h2
    by_cases h : envPower env (!s.inverted) = s.power
    · simp [normal_use, h1, update_state_eq_self _ _ _ _ _ h]
    · simp [normal_use, h1, update_state, h, h2]

/-- Witness for C10 at the empty state table. -/
theorem missing_state_entry_skips_write_witness :
    update_state [] ⟨some 0, 0, 0, 0⟩ false 0 ⟨false, 0⟩ = (⟨false, 0⟩, none)
    ∧ normal_use [] ⟨some 0, 0, 0, 0⟩ ⟨false, 0⟩
        = (⟨false, 0⟩, [], BlockActionResult.success) :=
  ⟨(missing_state_entry_skips_write [] ⟨some 0, 0, 0, 0⟩ false 0 ⟨false, 0⟩).1 (by simp),
   (missing_state_entry_skips_write [] ⟨some 0, 0, 0, 0⟩ false 0 ⟨false, 0⟩).2 (by simp) (by simp)⟩

lemma normal_use_eq_of_valid (env : Env) (s : Props)
    (h0 : 0 ≤ s.power) (h15 : s.power ≤ 15) :
    normal_use allStates env s =
      (⟨!s.inverted, envPower env (!s.inverted)⟩,
       (⟨!s.inverted, s.power⟩, NotifyFlag.notifyListeners) ::
         (if envPower env (!s.inverted) = s.power then []
          else [(⟨!s.inverted, envPower env (!s.inverted)⟩, NotifyFlag.notifyAll)]),
       BlockActionResult.success) := by
  have hlk : allStates[to_index ⟨!s.inverted, s.power⟩]? = some ⟨!s.inverted, s.power⟩ :=
    allStates_lookup _ h0 h15
  by_cases h : envPower env (!s.inverted) = s.power
  · simp [normal_use, hlk, update_state_eq_self _ _ _ _ _ h, h]
  · simp [normal_use, hlk, update_state_writes _ _ _ _ h, h]

/-- C3: the toggle operation writes the bundle with flipped `inverted` and
the original `power`, with listeners-only strength, unconditionally as its
first write; then writes a second time with notify-all strength exactly
when the power recomputed under the new inverted flag differs from the
originally read power; and always returns success. -/
theorem normal_use_toggle_behavior (env : Env) (s : Props)
    (h0 : 0 ≤ s.power) (h15 : s.power ≤ 15) :
    ((normal_use allStates env s).2.2 = BlockActionResult.success)
    ∧ ((normal_use allStates env s).2.1.head?
        = some (⟨!s.inverted, s.power⟩, NotifyFlag.notifyListeners))
    ∧ (envPower env (!s.inverted) ≠ s.power →
        (normal_use allStates env s).2.1 =
          [(⟨!s.inverted, s.power⟩, NotifyFlag.notifyListeners),
           (⟨!s.inverted, envPower env (!s.inverted)⟩, NotifyFlag.notifyAll)])
    ∧ (envPower env (!s.inverted) = s.power →
        (normal_use allStates env s).2.1 =
          [(⟨!s.inverted, s.power⟩, NotifyFlag.notifyListeners)]) := by
  rw [normal_use_eq_of_valid env s h0 h15]
  refine ⟨rfl, rfl, fun h => ?_, fun h => ?_⟩ <;> simp [h]

/-- Witness for C3 at a concrete state and environment. -/
theorem normal_use_toggle_behavior_witness :
    ((normal_use allStates ⟨some 0, 0, 0, 0⟩ ⟨false, 3⟩).2.2 = BlockActionResult.success)
    ∧ ((normal_use allStates ⟨some 0, 0, 0, 0⟩ ⟨false, 3⟩).2.1.head?
        = some (⟨!false, (3 : ℤ)⟩, NotifyFlag.notifyListeners)) :=
  ⟨(normal_use_toggle_behavior ⟨some 0, 0, 0, 0⟩ ⟨false, 3⟩ (by norm_num) (by norm_num)).1,
   (normal_use_toggle_behavior ⟨some 0, 0, 0, 0⟩ ⟨false, 3⟩ (by norm_num) (by norm_num)).2.1⟩

/-- C4: toggling twice in succession under a fixed environment restores the
original `inverted` flag, and the power stored after the second toggle is
exactly the power computed for the original inverted flag under that
environment. -/
theorem toggle_twice_restores (env : Env) (s : Props)
    (h0 : 0 ≤ s.power) (h15 : s.power ≤ 15) :
    ((normal_use allStates env ((normal_use allStates env s).1)).1).inverted = s.inverted
    ∧ ((normal_use allStates env ((normal_use allStates env s).1)).1).power
        = envPower env s.inverted := by
  have hfst1 : (normal_use allStates env s).1 = ⟨!s.inverted, envPower env (!s.inverted)⟩ := by
    rw [normal_use_eq_of_valid env s h0 h15]
  have hfst2 : (normal_use allStates env ⟨!s.inverted, envPower env (!s.inverted)⟩).1
      = ⟨!(!s.inverted), envPower env (!(!s.inverted))⟩ := by
    rw [normal_use_eq_of_valid env ⟨!s.inverted, envPower env (!s.inverted)⟩
      (envPower_nonneg env (!s.inverted)) (envPower_le_fifteen env (!s.inverted))]
  rw [hfst1, hfst2]
  simp

/-- Witness for C4 at a concrete state and environment. -/
theorem toggle_twice_restores_witness :
    ((normal_use allStates ⟨some 0, 0, 0, 0⟩
        ((normal_use allStates ⟨some 0, 0, 0, 0⟩ ⟨true, 5⟩).1)).1).inverted = true
    ∧ ((normal_use allStates ⟨some 0, 0, 0, 0⟩
        ((normal_use allStates ⟨some 0, 0, 0, 0⟩ ⟨true, 5⟩).1)).1).power
        = envPower ⟨some 0, 0, 0, 0⟩ true :=
  toggle_twice_restores ⟨some 0, 0, 0, 0⟩ ⟨true, 5⟩ (by norm_num) (by norm_num)

lemma time_of_day_zero : time_of_day 0 = -Real.sqrt 2 / 12 := by
  have hx : ((0 : ℤ) : ℝ) / 24000 - 0.25 = -(1 / 4 : ℝ) := by norm_num
  have htr : rustTrunc (-(1 / 4) : ℝ) = 0 := by
    rw [rustTrunc, if_neg (by norm_num)]
    rw [Int.ceil_eq_zero_iff, Set.mem_Ioc]
    constructor <;> norm_num
  have hfr : rustFract (((0 : ℤ) : ℝ) / 24000 - 0.25) = -(1 / 4 : ℝ) := by
    rw [rustFract, hx, htr]
    norm_num
  have hcos : Real.cos (-(1 / 4 : ℝ) * Real.pi) = Real.sqrt 2 / 2 := by
    have h : (-(1 / 4 : ℝ)) * Real.pi = -(Real.pi / 4) := by ring
    rw [h, Real.cos_neg, Real.cos_pi_div_four]
  simp only [time_of_day]
  rw [hfr, hcos]
  ring

lemma time_of_day_24000 : time_of_day 24000 = 2 / 3 + Real.sqrt 2 / 12 := by
  have hx : ((24000 : ℤ) : ℝ) / 24000 - 0.25 = (3 / 4 : ℝ) := by norm_num
  have htr : rustTrunc ((3 / 4) : ℝ) = 0 := by
    rw [rustTrunc, if_pos (by norm_num)]
    rw [Int.floor_eq_zero_iff, Set.mem_Ico]
    constructor <;> norm_num
  have hfr : rustFract (((24000 : ℤ) : ℝ) / 24000 - 0.25) = (3 / 4 : ℝ) := by
    rw [rustFract, hx, htr]
    norm_num
  have hcos : Real.cos ((3 / 4 : ℝ) * Real.pi) = -(Real.sqrt 2 / 2) := by
    have h : (3 / 4 : ℝ) * Real.pi = Real.pi - Real.pi / 4 := by ring
    rw [h, Real.cos_pi_sub, Real.cos_pi_div_four]
  simp only [time_of_day]
  rw [hfr, hcos]
  ring

lemma time_of_day_6000 : time_of_day 6000 = 0 := by
  have hx : ((6000 : ℤ) : ℝ) / 24000 - 0.25 = (0 : ℝ) := by norm_num
  have htr : rustTrunc ((0 : ℝ)) = 0 := by
    rw [rustTrunc, if_pos le_rfl]
    exact Int.floor_zero
  have hfr : rustFract (((6000 : ℤ) : ℝ) / 24000 - 0.25) = (0 : ℝ) := by
    rw [rustFract, hx, htr]
    norm_num
  simp only [time_of_day]
  rw [hfr]
  simp
  norm_num

/-- C5 (refutation on the code): `time_of_day` uses the trunc-based
`fract`, so at `day_time = 0` its result is the negative value `−√2/12`,
outside `[0, 1)`, and it differs from the value one full day later at
`day_time = 24000`, breaking 24000-periodicity — contrary to the claim and
to the function's own doc comment promising `0.0..1.0`. -/
theorem time_of_day_below_range_and_aperiodic :
    time_of_day 0 = -Real.sqrt 2 / 12
    ∧ time_of_day 24000 = 2 / 3 + Real.sqrt 2 / 12
    ∧ time_of_day 0 < 0
    ∧ time_of_day (0 + 24000) ≠ time_of_day 0 := by
  have h0 := time_of_day_zero
  have h24 := time_of_day_24000
  have hs : 0 < Real.sqrt 2 := Real.sqrt_pos.mpr (by norm_num)
  have h024 : ((0 : ℤ) + 24000) = (24000 : ℤ) := by norm_num
  refine ⟨h0, h24, by rw [h0]; linarith, ?_⟩
  rw [h024, h24, h0]
  intro heq
  linarith

lemma sky_sub_6000_full_weather : calculate_sky_light_subtraction 6000 1 1 = 5 := by
  rw [calculate_sky_light_subtraction_def, time_of_day_6000]
  have h1 : (0 : ℝ) * Real.pi * 2 = 0 := by ring
  rw [h1, Real.cos_zero]
  have h2 : clampR (-0.25) 0.25 (1 : ℝ) = 0.25 := by
    rw [clampR]; norm_num
  rw [h2]
  have h3 : ((1 - (0.5 + 2 * (0.25 : ℝ)) * (1 - 1 * 5 / 16) * (1 - 1 * 5 / 16)) * 11)
      = 1485 / 256 := by norm_num
  rw [h3, castU8]
  have h4 : rustTrunc ((1485 : ℝ) / 256) = 5 := by
    rw [rustTrunc, if_pos (by norm_num)]
    rw [Int.floor_eq_iff]
    constructor <;> norm_num
  rw [h4]
  norm_num

/-- C6 counterexample: at `time = 6000` with full rain and thunder the
darkening amount is 5, yet with `sky_light = 0` the computed internal light
is 0, not the raw difference `0 − 5 = −5`: negative values are truncated to
0 by the saturating subtraction, contrary to the claim. -/
theorem internal_light_clamped_counterexample :
    calculate_internal_light (some 0) 6000 1 1 = 0
    ∧ (0 : ℤ) - calculate_sky_light_subtraction 6000 1 1 = -5 := by
  constructor
  · simp [calculate_internal_light, saturating_sub, sky_sub_6000_full_weather]
  · rw [sky_sub_6000_full_weather]
    norm_num

/-- C6 amended: internal light is the *saturating* subtraction
`max 0 (sky_light − darken)`: negative differences are clamped to 0 before
reaching the power calculation, and for `sky_light ∈ [0, 15]` the result
stays in `[0, 15]`. -/
theorem internal_light_saturating (sky : ℤ) (time : ℤ) (rain thunder : ℝ)
    (h0 : 0 ≤ sky) (h15 : sky ≤ 15) :
    calculate_internal_light (some sky) time rain thunder
      = max 0 (sky - calculate_sky_light_subtraction time rain thunder)
    ∧ 0 ≤ calculate_internal_light (some sky) time rain thunder
    ∧ calculate_internal_light (some sky) time rain thunder ≤ 15 := by
  have hd := calculate_sky_light_subtraction_nonneg time rain thunder
  refine ⟨rfl, le_max_left _ _, ?_⟩
  have : calculate_internal_light (some sky) time rain thunder
      = max 0 (sky - calculate_sky_light_subtraction time rain thunder) := rfl
  rw [this]
  exact max_le (by norm_num) (by omega)

/-- Witness for C6's amended claim at sky light 0, noon, full weather. -/
theorem internal_light_saturating_witness :
    calculate_internal_light (some 0) 6000 1 1
      = max 0 (0 - calculate_sky_light_subtraction 6000 1 1)
    ∧ 0 ≤ calculate_internal_light (some 0) 6000 1 1
    ∧ calculate_internal_light (some 0) 6000 1 1 ≤ 15 :=
  internal_light_saturating 0 6000 1 1 (by norm_num) (by norm_num)

/-- C9: sky-light lookup failure degrades to the default value 0:
`calculate_internal_light` is total, and on lookup failure its result
equals the result for `sky_light = 0` under the same time and weather. -/
theorem sky_light_lookup_default :
    ∀ (time : ℤ) (rain thunder : ℝ),
      calculate_internal_light none time rain thunder
        = calculate_internal_light (some 0) time rain thunder :=
  fun _ _ _ => rfl

end DaylightDetector
